import Mathlib

/-!
Verification development for the member-management / video-gallery front-end.

Part 1 embeds the registration dialog (`RegisterMember` / `onSubmit`):
the form data, the local validation rules registered on the form fields,
the error-code-to-message mapping of the catch block, and the sequencing
of the external calls (identity creation, profile write, notification
write) as an effect trace.
-/

namespace Gold

/-- Form data collected by the registration dialog (interface `MemberFormData`). -/
structure MemberFormData where
  name : String
  email : String
  password : String
  membership : String
  status : String
  statusColor : String
deriving DecidableEq, Repr

/-- Outcome of the external identity-creation call
(`createUserWithEmailAndPassword`): an opaque uid, or a classified error
carrying the service error code and message. -/
inductive AuthOutcome where
  | ok (uid : String)
  | err (code : String) (msg : String)
deriving DecidableEq, Repr

/-- Outcome of one external document-store write (`addDoc`). -/
inductive StoreOutcome where
  | ok
  | err (code : String) (msg : String)
deriving DecidableEq, Repr

/-- The catch block of `onSubmit`: maps a service error to the user-facing
message.  `error.message || "Failed to register member."` treats the empty
message as falsy, then specific codes overwrite the message. -/
def mapErrorMessage (code msg : String) : String :=
  let base := if msg = "" then "Failed to register member." else msg
  if code = "auth/email-already-in-use" then "Email already in use."
  else if code = "auth/invalid-email" then "Invalid email format."
  else if code = "auth/weak-password" then "Password must be at least 6 characters."
  else if code = "permission-denied" then "Permission denied: Unable to save data."
  else if code = "unavailable" then "Firestore service is unavailable."
  else base

/-- Observable effects of one submission attempt: which external calls were
attempted, how many success/error toasts fired, the `formError` state, and
whether the form was reset and the dialog closed. -/
structure SubmitTrace where
  authAttempted : Bool
  memberWriteAttempted : Bool
  notificationWriteAttempted : Bool
  successToasts : Nat
  errorToasts : Nat
  formError : Option String
  didReset : Bool
  didClose : Bool
deriving DecidableEq, Repr

/-- `onSubmit`: awaits identity creation; on success awaits the members
write, then the notifications write; then toasts success, resets and
closes.  Any throw jumps to the single catch block, which records the
mapped message and toasts the error.  The three outcome parameters stand
for the results the external services would return if the corresponding
call is reached. -/
def onSubmit (authRes : AuthOutcome) (memberWrite notifWrite : StoreOutcome) : SubmitTrace :=
  match authRes with
  | .err code msg =>
      { authAttempted := true, memberWriteAttempted := false,
        notificationWriteAttempted := false,
        successToasts := 0, errorToasts := 1,
        formError := some (mapErrorMessage code msg),
        didReset := false, didClose := false }
  | .ok _ =>
      match memberWrite with
      | .err code msg =>
          { authAttempted := true, memberWriteAttempted := true,
            notificationWriteAttempted := false,
            successToasts := 0, errorToasts := 1,
            formError := some (mapErrorMessage code msg),
            didReset := false, didClose := false }
      | .ok =>
          match notifWrite with
          | .err code msg =>
              { authAttempted := true, memberWriteAttempted := true,
                notificationWriteAttempted := true,
                successToasts := 0, errorToasts := 1,
                formError := some (mapErrorMessage code msg),
                didReset := false, didClose := false }
          | .ok =>
              { authAttempted := true, memberWriteAttempted := true,
                notificationWriteAttempted := true,
                successToasts := 1, errorToasts := 0,
                formError := none,
                didReset := true, didClose := true }

/-- The email pattern registered on the email field: the JS regex
`^\S+@\S+\.\S+$`, i.e. the whole string is whitespace-free and splits as
nonempty, then an at sign at position `i ≥ 1`, then a nonempty middle, a
dot at position `j ≥ i + 2`, and a nonempty tail. -/
def matchesEmailShape (s : String) : Bool :=
  let cs := s.toList
  cs.all (fun c => !c.isWhitespace) &&
    (List.range cs.length).any (fun i =>
      (List.range cs.length).any (fun j =>
        decide (1 ≤ i) && decide (cs.get? i = some '@') &&
        decide (i + 2 ≤ j) && decide (j + 2 ≤ cs.length) &&
        decide (cs.get? j = some '.')))

/-- Validation registered on the name field: required. -/
def validateName (name : String) : Option String :=
  if name = "" then some "Name is required" else none

/-- Validation registered on the email field: required, then the pattern. -/
def validateEmail (email : String) : Option String :=
  if email = "" then some "Email is required"
  else if !matchesEmailShape email then some "Invalid email format"
  else none

/-- Validation registered on the password field: required, then minimum
length 6. -/
def validatePassword (password : String) : Option String :=
  if password = "" then some "Password is required"
  else if password.length < 6 then some "Password must be at least 6 characters"
  else none

/-- Validation registered on the membership select: required. -/
def validateMembership (membership : String) : Option String :=
  if membership = "" then some "Membership type is required" else none

/-- All field validations pass. -/
def formValid (d : MemberFormData) : Bool :=
  (validateName d.name).isNone && (validateEmail d.email).isNone &&
  (validatePassword d.password).isNone && (validateMembership d.membership).isNone

/-- The trace of a blocked submission: nothing external happens, no toast,
no reset, no close. -/
def emptyTrace : SubmitTrace :=
  { authAttempted := false, memberWriteAttempted := false,
    notificationWriteAttempted := false,
    successToasts := 0, errorToasts := 0,
    formError := none, didReset := false, didClose := false }

/-- `handleSubmit(onSubmit)`: the form library runs the registered field
validations and only invokes `onSubmit` when every field is valid. -/
def handleSubmitFlow (d : MemberFormData) (authRes : AuthOutcome)
    (memberWrite notifWrite : StoreOutcome) : SubmitTrace :=
  if formValid d then onSubmit authRes memberWrite notifWrite else emptyTrace

/-- C1: when identity creation is rejected with the duplicate-email error
code, the displayed error message is exactly "Email already in use." and
neither the profile write nor the notification write is attempted. -/
theorem duplicateEmail_message_and_no_writes (msg : String)
    (memberWrite notifWrite : StoreOutcome) :
    (onSubmit (.err "auth/email-already-in-use" msg) memberWrite notifWrite).formError
        = some "Email already in use." ∧
    (onSubmit (.err "auth/email-already-in-use" msg) memberWrite notifWrite).memberWriteAttempted
        = false ∧
    (onSubmit (.err "auth/email-already-in-use" msg) memberWrite notifWrite).notificationWriteAttempted
        = false := by
  refine ⟨?_, rfl, rfl⟩
  simp [onSubmit, mapErrorMessage]

/-- C8: a submission with an empty name, email, or password field is
blocked: no identity creation, no profile write, no notification write. -/
theorem emptyFields_block_submission (d : MemberFormData) (authRes : AuthOutcome)
    (memberWrite notifWrite : StoreOutcome)
    (h : d.name = "" ∨ d.email = "" ∨ d.password = "") :
    (handleSubmitFlow d authRes memberWrite notifWrite).authAttempted = false ∧
    (handleSubmitFlow d authRes memberWrite notifWrite).memberWriteAttempted = false ∧
    (handleSubmitFlow d authRes memberWrite notifWrite).notificationWriteAttempted = false := by
  have hv : formValid d = false := by
    rcases h with h | h | h <;>
      simp [formValid, validateName, validateEmail, validatePassword, h]
  simp [handleSubmitFlow, hv, emptyTrace]

/-- Witness for C8 at a concrete submission with an empty name. -/
theorem emptyFields_block_submission_witness :
    (handleSubmitFlow
        { name := "", email := "a@b.c", password := "secret1",
          membership := "Basic", status := "Active", statusColor := "text-green-500" }
        (.ok "uid1") .ok .ok).authAttempted = false :=
  (emptyFields_block_submission _ _ _ _ (Or.inl rfl)).1

/-- C9: when identity creation succeeds and both store writes succeed, the
dialog resets its fields, closes, and the success toast fires exactly
once. -/
theorem successPath_resets_closes_single_toast (uid : String) :
    (onSubmit (.ok uid) .ok .ok).didReset = true ∧
    (onSubmit (.ok uid) .ok .ok).didClose = true ∧
    (onSubmit (.ok uid) .ok .ok).successToasts = 1 :=
  ⟨rfl, rfl, rfl⟩

/-!
Part 2 embeds the video gallery (`VideoFetch`): the fetched video record,
the grouping by category done in `fetchVideos`, and the loading / store
trace of the fetch.
-/

/-- A fetched video record.  `category` is `none` when the stored document
has no category field; the client-side synthesized display fields
(`views`, `duration`) do not enter the grouping and are omitted. -/
structure Video where
  id : String
  title : String
  channel : String
  category : Option String
  thumbnail : String
  videoUrl : String
  description : String
deriving DecidableEq, Repr

/-- `video.category || 'uncategorized'`: a missing category and the empty
string are both falsy in JS and fall back to the default bucket. -/
def effCategory (v : Video) : String :=
  match v.category with
  | none => "uncategorized"
  | some c => if c = "" then "uncategorized" else c

/-- Lookup in the grouped object: the array stored under a category key,
empty when the key is absent. -/
def groupLookup : List (String × List Video) → String → List Video
  | [], _ => []
  | (c, g) :: rest, cat => if c = cat then g else groupLookup rest cat

/-- One step of the grouping reduce: `acc[category].push(video)`, creating
the key (in insertion order) when absent. -/
def insertGrouped (acc : List (String × List Video)) (cat : String) (v : Video) :
    List (String × List Video) :=
  match acc with
  | [] => [(cat, [v])]
  | (c, g) :: rest =>
      if c = cat then (c, g ++ [v]) :: rest else (c, g) :: insertGrouped rest cat v

/-- The `fetchedVideos.reduce` of `fetchVideos`: group the fetched list by
effective category, preserving fetch order inside each bucket. -/
def groupVideos (vs : List Video) : List (String × List Video) :=
  vs.foldl (fun acc v => insertGrouped acc (effCategory v) v) []

/-- The bucket of one category in the grouped result. -/
def groupOf (vs : List Video) (c : String) : List Video :=
  groupLookup (groupVideos vs) c

theorem groupLookup_insertGrouped (acc : List (String × List Video))
    (cat : String) (v : Video) (c : String) :
    groupLookup (insertGrouped acc cat v) c =
      if c = cat then groupLookup acc c ++ [v] else groupLookup acc c := by
  induction acc with
  | nil =>
      by_cases h : c = cat
      · subst h; simp [insertGrouped, groupLookup]
      · simp [insertGrouped, groupLookup, h, Ne.symm h]
  | cons hd tl ih =>
      obtain ⟨c', g⟩ := hd
      by_cases h1 : c' = cat
      · subst h1
        by_cases h2 : c' = c
        · subst h2
          simp [insertGrouped, groupLookup]
        · simp [insertGrouped, groupLookup, h2, Ne.symm h2]
      · by_cases h2 : c' = c
        · subst h2
          simp [insertGrouped, groupLookup, h1]
        · simp [insertGrouped, groupLookup, h1, h2, ih]

theorem groupLookup_foldl (vs : List Video) :
    ∀ (acc : List (String × List Video)) (c : String),
      groupLookup (List.foldl (fun a v => insertGrouped a (effCategory v) v) acc vs) c =
        groupLookup acc c ++ List.filter (fun v => effCategory v == c) vs := by
  induction vs with
  | nil => intro acc c; simp
  | cons v tl ih =>
      intro acc c
      simp only [List.foldl_cons, List.filter_cons]
      rw [ih, groupLookup_insertGrouped]
      by_cases h : c = effCategory v
      · have hb : (effCategory v == c) = true := by simp [h]
        simp [h, hb]
      · have hb : (effCategory v == c) = false := by
          simp only [beq_eq_false_iff_ne, ne_eq]
          exact fun hh => h hh.symm
        simp [h, hb]

/-- C3: grouping by category is stable: every bucket of the grouped result
is exactly the fetch-ordered sublist of records with that effective
category (so two records sharing a category share a bucket and keep fetch
order), and a record with no category field lands in the
"uncategorized" bucket. -/
theorem groupVideos_stable (vs : List Video) :
    (∀ c : String, groupOf vs c = List.filter (fun v => effCategory v == c) vs) ∧
    (∀ v : Video, v ∈ vs → v.category = none → v ∈ groupOf vs "uncategorized") := by
  have h1 : ∀ c : String, groupOf vs c = List.filter (fun v => effCategory v == c) vs := by
    intro c
    unfold groupOf groupVideos
    rw [groupLookup_foldl]
    simp [groupLookup]
  refine ⟨h1, ?_⟩
  intro v hv hc
  rw [h1]
  exact List.mem_filter.mpr ⟨hv, by simp [effCategory, hc]⟩

/-- Witness for C3: a record without a category lands in the
"uncategorized" bucket of a concrete fetched list. -/
theorem groupVideos_stable_witness :
    ({ id := "w1", title := "t", channel := "ch", category := none,
       thumbnail := "", videoUrl := "u", description := "" } : Video) ∈
      groupOf [{ id := "w1", title := "t", channel := "ch", category := none,
                 thumbnail := "", videoUrl := "u", description := "" }] "uncategorized" :=
  (groupVideos_stable _).2 _ (by simp) rfl

/-- Observable events of the initial fetch, in order: the loading-callback
calls, the collection read, the grouped-result callback, and the
initialization of the per-video playback maps. -/
inductive FetchEvent where
  | loadingSet (b : Bool)
  | collectionRead
  | workoutsSet (g : List (String × List Video))
  | playbackInit
deriving DecidableEq, Repr

/-- Result of the collection read: the fetched (already augmented) records,
or a thrown error. -/
inductive FetchOutcome where
  | ok (docs : List Video)
  | err
deriving DecidableEq, Repr

/-- Result of one run of `fetchVideos`: the ordered event trace and the
final grouped-video component state. -/
structure FetchResult where
  events : List FetchEvent
  groupedState : List (String × List Video)
deriving DecidableEq, Repr

/-- `fetchVideos`: `setLoading(true)`, the `getDocs` read, then on success
grouping, `setVideos`/`setWorkouts`, and playback-state initialization; on
a throw only the catch log; in both cases `finally setLoading(false)`.
The grouped state starts empty and is only assigned on success. -/
def fetchVideos (oc : FetchOutcome) : FetchResult :=
  match oc with
  | .ok docs =>
      { events := [.loadingSet true, .collectionRead,
                   .workoutsSet (groupVideos docs), .playbackInit,
                   .loadingSet false],
        groupedState := groupVideos docs }
  | .err =>
      { events := [.loadingSet true, .collectionRead, .loadingSet false],
        groupedState := [] }

/-- C10: the loading flag is set to true before the collection read and
reset to false afterwards in both the success and the failure case; on
failure `setWorkouts` is never called and the grouped-video state remains
empty. -/
theorem fetchVideos_loading_and_failure (oc : FetchOutcome) :
    (fetchVideos oc).events.head? = some (.loadingSet true) ∧
    (fetchVideos oc).events.get? 1 = some .collectionRead ∧
    (fetchVideos oc).events.getLast? = some (.loadingSet false) ∧
    (oc = .err →
      (∀ g : List (String × List Video),
        FetchEvent.workoutsSet g ∉ (fetchVideos oc).events) ∧
      (fetchVideos oc).groupedState = []) := by
  cases oc with
  | ok docs =>
      refine ⟨rfl, rfl, rfl, ?_⟩
      intro h; cases h
  | err =>
      refine ⟨rfl, rfl, rfl, fun _ => ⟨?_, rfl⟩⟩
      intro g hg
      simp [fetchVideos] at hg

/-- Witness for C10 at the failure outcome. -/
theorem fetchVideos_loading_and_failure_witness :
    (fetchVideos .err).groupedState = [] :=
  ((fetchVideos_loading_and_failure .err).2.2.2 rfl).2

/-!
Part 3 embeds the player state machine of `VideoFetch`: the per-video
React state maps, the fullscreen session, the native media element
properties, and the event handlers.  Element refs are modelled as total
because the component renders a video element (and assigns its ref) for
every fetched video, so the `if (videoElement)` guards of the handlers are
always taken.
-/

/-- The mirrored native media element per video id: `paused`,
`currentTime`, `muted`, `volume`. -/
structure MediaElem where
  paused : Bool
  currentTime : Rat
  muted : Bool
  volume : Rat
deriving DecidableEq, Repr

/-- The `currentFullScreenVideo` record: the active video id and its
category. -/
structure FsVideo where
  id : String
  category : String
deriving DecidableEq, Repr

/-- The component state of `VideoFetch`: the grouped videos, the five
per-id state maps, the fullscreen session fields, and the native media
elements addressed by id. -/
structure PlayerState where
  videos : List (String × List Video)
  playing : String → Bool
  volume : String → Rat
  muted : String → Bool
  progress : String → Rat
  videoLoaded : String → Bool
  currentFullScreenVideo : Option FsVideo
  currentCategory : Option String
  isFullScreen : Bool
  isSmallScreen : Bool
  elem : String → MediaElem

/-- Point update of an id-keyed map. -/
def upd {α : Type} (f : String → α) (k : String) (v : α) : String → α :=
  fun x => if x = k then v else f x

/-- State right after a successful fetch: grouped videos installed and the
per-id maps at their initial values (`playing=false`, `volume=0.7`,
`muted=true`, `progress=0`, `loaded=false`), no fullscreen session. -/
def initPlayer (videos0 : List (String × List Video)) : PlayerState :=
  { videos := videos0,
    playing := fun _ => false,
    volume := fun _ => (7 : Rat) / 10,
    muted := fun _ => true,
    progress := fun _ => 0,
    videoLoaded := fun _ => false,
    currentFullScreenVideo := none,
    currentCategory := none,
    isFullScreen := false,
    isSmallScreen := false,
    elem := fun _ => { paused := true, currentTime := 0, muted := true, volume := 1 } }

/-- `handleMuteToggle`: flips the muted map entry and mirrors the new value
onto the element. -/
def handleMuteToggle (videoId : String) (s : PlayerState) : PlayerState :=
  { s with muted := upd s.muted videoId (!(s.muted videoId)),
           elem := upd s.elem videoId
             { s.elem videoId with muted := !(s.muted videoId) } }

/-- The muted indicator rendered on a card or in the theater bar:
`muted[id] || volume[id] === 0`. -/
def mutedIndicator (s : PlayerState) (videoId : String) : Bool :=
  s.muted videoId || decide (s.volume videoId = 0)

/-- `handleFullScreen`: records the session (id and category), enters
fullscreen, leaves compact mode, marks the video playing, unmutes the
element and the muted map, and starts playback. -/
def handleFullScreen (videoId category : String) (s : PlayerState) : PlayerState :=
  { s with currentFullScreenVideo := some { id := videoId, category := category },
           currentCategory := some category,
           isFullScreen := true,
           isSmallScreen := false,
           playing := upd s.playing videoId true,
           muted := upd s.muted videoId false,
           elem := upd s.elem videoId
             { s.elem videoId with muted := false, paused := false } }

/-- `handleExitFullScreen`: asks the browser to leave fullscreen and clears
the session fields. -/
def handleExitFullScreen (s : PlayerState) : PlayerState :=
  { s with currentFullScreenVideo := none,
           currentCategory := none,
           isFullScreen := false,
           isSmallScreen := false }

/-- The `fullscreenchange` listener: when the document reports no
fullscreen element while a session is recorded, clear the session
fields; otherwise leave the state untouched. -/
def handleFullscreenChange (fsActive : Bool) (s : PlayerState) : PlayerState :=
  if !fsActive && s.currentFullScreenVideo.isSome then
    { s with currentFullScreenVideo := none,
             currentCategory := none,
             isFullScreen := false,
             isSmallScreen := false }
  else s

/-- JS `Array.prototype.findIndex` on ids: first index, or -1. -/
def findIndexId (vs : List Video) (videoId : String) : Int :=
  match vs.findIdx? (fun v => v.id == videoId) with
  | some i => (i : Int)
  | none => -1

/-- `handleNextVideo`: no-op without a session or category; otherwise pick
the wraparound successor index (JS `%` is truncated remainder, embedded as
`Int.tmod`), pause the outgoing video and clear its playing flag, move the
session to the successor, set its playing flag, and reset / unmute / play
its element.  On an empty or missing playlist the JS code throws before
any state update, which leaves the component state unchanged. -/
def handleNextVideo (s : PlayerState) : PlayerState :=
  match s.currentFullScreenVideo, s.currentCategory with
  | some fv, some cat =>
      let currentVideos := groupLookup s.videos cat
      if currentVideos.isEmpty then s
      else
        let nextIndex :=
          ((findIndexId currentVideos fv.id + 1).tmod
            (currentVideos.length : Int)).toNat
        match currentVideos.get? nextIndex with
        | none => s
        | some nextVideo =>
            let s1 : PlayerState :=
              { s with playing := upd s.playing fv.id false,
                       elem := upd s.elem fv.id
                         { s.elem fv.id with paused := true } }
            let s2 : PlayerState :=
              { s1 with currentFullScreenVideo :=
                          (some ⟨nextVideo.id, cat⟩),
                        playing := upd s1.playing nextVideo.id true }
            let startedElem : MediaElem :=
              { s2.elem nextVideo.id with
                  currentTime := 0, muted := false, paused := false }
            { s2 with elem := upd s2.elem nextVideo.id startedElem }
  | _, _ => s

/-- `handlePreviousVideo`: the wraparound predecessor,
`(index - 1 + length) % length`, with the same outgoing/incoming
effects as `handleNextVideo`. -/
def handlePreviousVideo (s : PlayerState) : PlayerState :=
  match s.currentFullScreenVideo, s.currentCategory with
  | some fv, some cat =>
      let currentVideos := groupLookup s.videos cat
      if currentVideos.isEmpty then s
      else
        let prevIndex :=
          ((findIndexId currentVideos fv.id - 1 + (currentVideos.length : Int)).tmod
            (currentVideos.length : Int)).toNat
        match currentVideos.get? prevIndex with
        | none => s
        | some prevVideo =>
            let s1 : PlayerState :=
              { s with playing := upd s.playing fv.id false,
                       elem := upd s.elem fv.id
                         { s.elem fv.id with paused := true } }
            let s2 : PlayerState :=
              { s1 with currentFullScreenVideo :=
                          (some ⟨prevVideo.id, cat⟩),
                        playing := upd s1.playing prevVideo.id true }
            let startedElem : MediaElem :=
              { s2.elem prevVideo.id with
                  currentTime := 0, muted := false, paused := false }
            { s2 with elem := upd s2.elem prevVideo.id startedElem }
  | _, _ => s

/-- A concrete two-video category for witnesses. -/
def vidA : Video :=
  { id := "v1", title := "Morning Flow", channel := "Gold", category := some "yoga",
    thumbnail := "", videoUrl := "u1", description := "" }

/-- Second concrete video of the witness category. -/
def vidB : Video :=
  { id := "v2", title := "Evening Flow", channel := "Gold", category := some "yoga",
    thumbnail := "", videoUrl := "u2", description := "" }

/-- A concrete state with an active fullscreen session on `vidA` over the
two-video "yoga" playlist, all volumes at 0. -/
def sampleState : PlayerState :=
  { videos := [("yoga", [vidA, vidB])],
    playing := fun _ => false,
    volume := fun _ => 0,
    muted := fun _ => true,
    progress := fun _ => 0,
    videoLoaded := fun _ => true,
    currentFullScreenVideo := some { id := "v1", category := "yoga" },
    currentCategory := some "yoga",
    isFullScreen := true,
    isSmallScreen := false,
    elem := fun _ => { paused := false, currentTime := 5, muted := false, volume := 1 } }

/-- C4: toggling mute on a video whose volume is 0 does not change the
displayed muted indicator, which shows muted both before and after. -/
theorem muteToggle_zero_volume_indicator (s : PlayerState) (videoId : String)
    (h : s.volume videoId = 0) :
    mutedIndicator (handleMuteToggle videoId s) videoId = mutedIndicator s videoId ∧
    mutedIndicator s videoId = true := by
  constructor
  · simp [mutedIndicator, handleMuteToggle, upd, h]
  · simp [mutedIndicator, h]

/-- Witness for C4 on a concrete zero-volume state. -/
theorem muteToggle_zero_volume_indicator_witness :
    mutedIndicator (handleMuteToggle "v1" sampleState) "v1" = mutedIndicator sampleState "v1" :=
  (muteToggle_zero_volume_indicator sampleState "v1" rfl).1

/-- C6: from any state with an active session, a native fullscreen-exit
event produces the same session fields (active video, active category,
fullscreen flag, compact-mode flag) as invoking the component's exit
control. -/
theorem nativeExit_matches_exitControl (s : PlayerState)
    (h : s.currentFullScreenVideo.isSome = true) :
    (handleFullscreenChange false s).currentFullScreenVideo
        = (handleExitFullScreen s).currentFullScreenVideo ∧
    (handleFullscreenChange false s).currentCategory
        = (handleExitFullScreen s).currentCategory ∧
    (handleFullscreenChange false s).isFullScreen
        = (handleExitFullScreen s).isFullScreen ∧
    (handleFullscreenChange false s).isSmallScreen
        = (handleExitFullScreen s).isSmallScreen := by
  simp [handleFullscreenChange, handleExitFullScreen, h]

/-- Witness for C6 on a concrete active session. -/
theorem nativeExit_matches_exitControl_witness :
    (handleFullscreenChange false sampleState).currentFullScreenVideo
        = (handleExitFullScreen sampleState).currentFullScreenVideo :=
  (nativeExit_matches_exitControl sampleState rfl).1

theorem natCast_tmod_toNat (m n : Nat) :
    (((m : Int)).tmod ((n : Int))).toNat = m % n := rfl

/-- Postcondition of `handleNextVideo` on an active session whose video
sits at index `i` of a nonempty playlist: the session moves to the
wraparound successor, which is marked playing with its element rewound,
unmuted and playing; when the successor is a different video, the outgoing
video ends up paused. -/
theorem nextVideo_spec (s : PlayerState) (fv : FsVideo) (cat : String)
    (vs : List Video) (i : Nat) (nxt : Video)
    (hsess : s.currentFullScreenVideo = some fv)
    (hcat : s.currentCategory = some cat)
    (hvs : groupLookup s.videos cat = vs)
    (hidx : vs.findIdx? (fun v => v.id == fv.id) = some i)
    (hget : vs.get? ((i + 1) % vs.length) = some nxt) :
    (handleNextVideo s).currentFullScreenVideo = some ⟨nxt.id, cat⟩ ∧
    (handleNextVideo s).playing nxt.id = true ∧
    ((handleNextVideo s).elem nxt.id).currentTime = 0 ∧
    ((handleNextVideo s).elem nxt.id).muted = false ∧
    ((handleNextVideo s).elem nxt.id).paused = false ∧
    (fv.id ≠ nxt.id →
      (handleNextVideo s).playing fv.id = false ∧
      ((handleNextVideo s).elem fv.id).paused = true) := by
  have hne : vs ≠ [] := by
    intro hh; rw [hh] at hget; simp at hget
  have hemp : vs.isEmpty = false := by
    cases vs with
    | nil => exact absurd rfl hne
    | cons a l => rfl
  have hfind : findIndexId vs fv.id = (i : Int) := by
    simp [findIndexId, hidx]
  have harith : ((findIndexId vs fv.id + 1).tmod (vs.length : Int)).toNat
      = (i + 1) % vs.length := by
    rw [hfind, ← Nat.cast_add_one, natCast_tmod_toNat]
  simp only [handleNextVideo, hsess, hcat, hvs, hemp, harith, hget,
    Bool.false_eq_true, if_false]
  refine ⟨?_, ?_, ?_, ?_, ?_, ?_⟩ <;>
    first
      | trivial
      | (intro hno; exact ⟨by simp [upd, hno], by simp [upd, hno]⟩)
      | simp [upd]

/-- Postcondition of `handlePreviousVideo`, symmetric to
`nextVideo_spec` with the wraparound predecessor index. -/
theorem prevVideo_spec (s : PlayerState) (fv : FsVideo) (cat : String)
    (vs : List Video) (i : Nat) (prv : Video)
    (hsess : s.currentFullScreenVideo = some fv)
    (hcat : s.currentCategory = some cat)
    (hvs : groupLookup s.videos cat = vs)
    (hidx : vs.findIdx? (fun v => v.id == fv.id) = some i)
    (hget : vs.get? ((i + vs.length - 1) % vs.length) = some prv) :
    (handlePreviousVideo s).currentFullScreenVideo = some ⟨prv.id, cat⟩ ∧
    (handlePreviousVideo s).playing prv.id = true ∧
    ((handlePreviousVideo s).elem prv.id).currentTime = 0 ∧
    ((handlePreviousVideo s).elem prv.id).muted = false ∧
    ((handlePreviousVideo s).elem prv.id).paused = false ∧
    (fv.id ≠ prv.id →
      (handlePreviousVideo s).playing fv.id = false ∧
      ((handlePreviousVideo s).elem fv.id).paused = true) := by
  have hne : vs ≠ [] := by
    intro hh; rw [hh] at hget; simp at hget
  have hemp : vs.isEmpty = false := by
    cases vs with
    | nil => exact absurd rfl hne
    | cons a l => rfl
  have hlen : 1 ≤ vs.length := by
    cases vs with
    | nil => exact absurd rfl hne
    | cons a l => simp
  have hfind : findIndexId vs fv.id = (i : Int) := by
    simp [findIndexId, hidx]
  have hcast : (i : Int) - 1 + (vs.length : Int) = ((i + vs.length - 1 : Nat) : Int) := by
    omega
  have harith : ((findIndexId vs fv.id - 1 + (vs.length : Int)).tmod (vs.length : Int)).toNat
      = (i + vs.length - 1) % vs.length := by
    rw [hfind, hcast, natCast_tmod_toNat]
  simp only [handlePreviousVideo, hsess, hcat, hvs, hemp, harith, hget,
    Bool.false_eq_true, if_false]
  refine ⟨?_, ?_, ?_, ?_, ?_, ?_⟩ <;>
    first
      | trivial
      | (intro hno; exact ⟨by simp [upd, hno], by simp [upd, hno]⟩)
      | simp [upd]

/-- C2: with an active fullscreen session over a nonempty category
playlist, Next (and Previous) pauses the outgoing video, moves the active
id to the wraparound neighbour, rewinds the incoming element to the start,
unmutes it, and starts its playback. -/
theorem nav_switches_to_neighbour (s : PlayerState) (fv : FsVideo) (cat : String)
    (vs : List Video)
    (hsess : s.currentFullScreenVideo = some fv)
    (hcat : s.currentCategory = some cat)
    (hvs : groupLookup s.videos cat = vs) :
    (∀ (i : Nat) (nxt : Video),
      vs.findIdx? (fun v => v.id == fv.id) = some i →
      vs.get? ((i + 1) % vs.length) = some nxt →
      ((handleNextVideo s).currentFullScreenVideo = some ⟨nxt.id, cat⟩ ∧
       (handleNextVideo s).playing nxt.id = true ∧
       ((handleNextVideo s).elem nxt.id).currentTime = 0 ∧
       ((handleNextVideo s).elem nxt.id).muted = false ∧
       ((handleNextVideo s).elem nxt.id).paused = false ∧
       (fv.id ≠ nxt.id →
         (handleNextVideo s).playing fv.id = false ∧
         ((handleNextVideo s).elem fv.id).paused = true))) ∧
    (∀ (i : Nat) (prv : Video),
      vs.findIdx? (fun v => v.id == fv.id) = some i →
      vs.get? ((i + vs.length - 1) % vs.length) = some prv →
      ((handlePreviousVideo s).currentFullScreenVideo = some ⟨prv.id, cat⟩ ∧
       (handlePreviousVideo s).playing prv.id = true ∧
       ((handlePreviousVideo s).elem prv.id).currentTime = 0 ∧
       ((handlePreviousVideo s).elem prv.id).muted = false ∧
       ((handlePreviousVideo s).elem prv.id).paused = false ∧
       (fv.id ≠ prv.id →
         (handlePreviousVideo s).playing fv.id = false ∧
         ((handlePreviousVideo s).elem fv.id).paused = true))) :=
  ⟨fun i nxt hidx hget => nextVideo_spec s fv cat vs i nxt hsess hcat hvs hidx hget,
   fun i prv hidx hget => prevVideo_spec s fv cat vs i prv hsess hcat hvs hidx hget⟩

/-- Witness for C2 on the concrete two-video playlist: Next moves from
`vidA` to `vidB`, starting `vidB` and stopping `vidA`. -/
theorem nav_switches_to_neighbour_witness :
    (handleNextVideo sampleState).currentFullScreenVideo = some ⟨vidB.id, "yoga"⟩ ∧
    (handleNextVideo sampleState).playing vidB.id = true ∧
    (handleNextVideo sampleState).playing "v1" = false := by
  have h := (nav_switches_to_neighbour sampleState ⟨"v1", "yoga"⟩ "yoga" [vidA, vidB]
      rfl rfl rfl).1 0 vidB (by decide) (by decide)
  exact ⟨h.1, h.2.1, (h.2.2.2.2.2 (by decide)).1⟩

/-- C7: with an active session over a category holding exactly one video,
Next and Previous both keep the session on that same video: wraparound
with length 1 is a fixed point. -/
theorem nav_singleton_fixed_point (s : PlayerState) (fv : FsVideo) (cat : String)
    (v : Video)
    (hsess : s.currentFullScreenVideo = some fv)
    (hcat : s.currentCategory = some cat)
    (hvs : groupLookup s.videos cat = [v])
    (hid : fv.id = v.id) :
    (handleNextVideo s).currentFullScreenVideo = some ⟨v.id, cat⟩ ∧
    (handlePreviousVideo s).currentFullScreenVideo = some ⟨v.id, cat⟩ := by
  have hidx : [v].findIdx? (fun w => w.id == fv.id) = some 0 := by
    simp [List.findIdx?_cons, hid]
  have hg1 : [v].get? ((0 + 1) % [v].length) = some v := by simp
  have hg2 : [v].get? ((0 + [v].length - 1) % [v].length) = some v := by simp
  constructor
  · exact (nextVideo_spec s fv cat [v] 0 v hsess hcat hvs hidx hg1).1
  · exact (prevVideo_spec s fv cat [v] 0 v hsess hcat hvs hidx hg2).1

/-- A concrete state whose session category holds a single video. -/
def singletonState : PlayerState :=
  { sampleState with
      videos := [("solo", [vidA])],
      currentFullScreenVideo := some { id := "v1", category := "solo" },
      currentCategory := some "solo" }

/-- Witness for C7 on the concrete one-video playlist. -/
theorem nav_singleton_fixed_point_witness :
    (handleNextVideo singletonState).currentFullScreenVideo = some ⟨"v1", "solo"⟩ ∧
    (handlePreviousVideo singletonState).currentFullScreenVideo = some ⟨"v1", "solo"⟩ :=
  nav_singleton_fixed_point singletonState ⟨"v1", "solo"⟩ "solo" vidA rfl rfl rfl rfl

/-!
Part 4: the combined component-and-browser transition system, for the
fullscreen-session invariant.  The browser's fullscreen mode is a flag
set when an element's fullscreen request is granted and cleared on any
exit (the component's exit control or a native exit such as the Escape
key); every exit also fires the `fullscreenchange` listener.
-/

/-- The component state paired with the browser's fullscreen mode. -/
structure SysState where
  player : PlayerState
  browserFS : Bool

/-- User-visible events that touch the session or the fullscreen mode. -/
inductive UEvent where
  | clickFullscreen (videoId category : String)
  | clickExit
  | nativeExit
  | fsChange
  | next
  | prev
  | muteToggle (videoId : String)

/-- One event step.  `clickFullscreen` runs `handleFullScreen` and the
granted request turns fullscreen mode on; `clickExit` runs
`handleExitFullScreen`, whose `exitFullscreen` call turns it off;
`nativeExit` is a browser-initiated exit (e.g. Escape), which turns the
mode off and fires the `fullscreenchange` listener; `fsChange` fires the
listener against the current mode; the rest run the corresponding
handlers. -/
def stepEvent (e : UEvent) (s : SysState) : SysState :=
  match e with
  | .clickFullscreen videoId category =>
      { player := handleFullScreen videoId category s.player, browserFS := true }
  | .clickExit =>
      { player := handleExitFullScreen s.player, browserFS := false }
  | .nativeExit =>
      { player := handleFullscreenChange false s.player, browserFS := false }
  | .fsChange =>
      { s with player := handleFullscreenChange s.browserFS s.player }
  | .next =>
      { s with player := handleNextVideo s.player }
  | .prev =>
      { s with player := handlePreviousVideo s.player }
  | .muteToggle videoId =>
      { s with player := handleMuteToggle videoId s.player }

/-- Run a list of events from a state. -/
def runEvents (evs : List UEvent) (s : SysState) : SysState :=
  evs.foldl (fun t e => stepEvent e t) s

/-- The state after mounting and fetching: no session, fullscreen off. -/
def initSys (videos0 : List (String × List Video)) : SysState :=
  { player := initPlayer videos0, browserFS := false }

/-- The FullscreenSession invariant: a non-null session only while the
browser's fullscreen mode is active. -/
def SessionInv (s : SysState) : Prop :=
  s.player.currentFullScreenVideo.isSome = true → s.browserFS = true

theorem handleFullscreenChange_false_session (p : PlayerState) :
    (handleFullscreenChange false p).currentFullScreenVideo = none := by
  unfold handleFullscreenChange
  cases hp : p.currentFullScreenVideo with
  | none => simp [hp]
  | some fv => simp [hp]

theorem handleNextVideo_session_isSome (p : PlayerState) :
    (handleNextVideo p).currentFullScreenVideo.isSome
      = p.currentFullScreenVideo.isSome := by
  unfold handleNextVideo
  cases hs : p.currentFullScreenVideo with
  | none => simp [hs]
  | some fv =>
      cases hc : p.currentCategory with
      | none => simp [hs, hc]
      | some cat =>
          simp only [hs, hc]
          split
          · simp [hs]
          · split <;> simp [hs]

theorem handlePreviousVideo_session_isSome (p : PlayerState) :
    (handlePreviousVideo p).currentFullScreenVideo.isSome
      = p.currentFullScreenVideo.isSome := by
  unfold handlePreviousVideo
  cases hs : p.currentFullScreenVideo with
  | none => simp [hs]
  | some fv =>
      cases hc : p.currentCategory with
      | none => simp [hs, hc]
      | some cat =>
          simp only [hs, hc]
          split
          · simp [hs]
          · split <;> simp [hs]

theorem stepEvent_preserves_inv (e : UEvent) (s : SysState)
    (h : SessionInv s) : SessionInv (stepEvent e s) := by
  cases e with
  | clickFullscreen videoId category => intro _; rfl
  | clickExit =>
      intro hh
      simp [stepEvent, handleExitFullScreen] at hh
  | nativeExit =>
      intro hh
      simp [stepEvent, handleFullscreenChange_false_session] at hh
  | fsChange =>
      intro hh
      cases hb : s.browserFS with
      | false =>
          exfalso
          rw [show (stepEvent .fsChange s).player = handleFullscreenChange s.browserFS s.player from rfl,
            hb] at hh
          simp [handleFullscreenChange_false_session] at hh
      | true => simp [stepEvent, hb]
  | next =>
      intro hh
      rw [show (stepEvent .next s).player = handleNextVideo s.player from rfl,
        handleNextVideo_session_isSome] at hh
      exact h hh
  | prev =>
      intro hh
      rw [show (stepEvent .prev s).player = handlePreviousVideo s.player from rfl,
        handlePreviousVideo_session_isSome] at hh
      exact h hh
  | muteToggle videoId =>
      intro hh
      exact h hh

theorem runEvents_preserves_inv (evs : List UEvent) :
    ∀ s : SysState, SessionInv s → SessionInv (runEvents evs s) := by
  induction evs with
  | nil => intro s h; exact h
  | cons e tl ih =>
      intro s h
      exact ih (stepEvent e s) (stepEvent_preserves_inv e s h)

/-- C5: along every event run from the freshly fetched state, the
fullscreen session is non-null only while the browser's fullscreen mode
is active, and any browser-reported fullscreen exit (including exits not
initiated by this UI) forces the session to null. -/
theorem fullscreenSession_invariant (evs : List UEvent)
    (videos0 : List (String × List Video)) :
    SessionInv (runEvents evs (initSys videos0)) ∧
    ∀ p : PlayerState, (handleFullscreenChange false p).currentFullScreenVideo = none := by
  constructor
  · apply runEvents_preserves_inv
    intro hh
    simp [initSys, initPlayer] at hh
  · exact handleFullscreenChange_false_session

/-- Witness for C5: after entering fullscreen on a concrete run the
session is non-null and the invariant yields an active fullscreen mode;
the native-exit clause applied at a concrete active state clears the
session. -/
theorem fullscreenSession_invariant_witness :
    (runEvents [UEvent.clickFullscreen "v1" "yoga"] (initSys [("yoga", [vidA, vidB])])).browserFS
        = true ∧
    (handleFullscreenChange false sampleState).currentFullScreenVideo = none :=
  ⟨(fullscreenSession_invariant [UEvent.clickFullscreen "v1" "yoga"]
      [("yoga", [vidA, vidB])]).1 rfl,
   (fullscreenSession_invariant [] []).2 sampleState⟩

end Gold
